import Mathlib

/-!
# The `/mcp` request handler of `mcp-server.js`

A shallow embedding of the handler registered with `app.post('/mcp', ...)` and of the
callback it hands to `child_process.exec`.  The file system, the child process and the
JavaScript engine's error messages are an explicit environment; the Express response
object is explicit state; every call that leaves the handler is recorded in a trace.
-/

namespace McpServer

/-! ## Values -/

/-- JavaScript values that can occur in a parsed JSON request, plus `undefined`
(the value of a property that is not there).  A number is kept as the bit pattern of
its IEEE-754 double; the handler never looks inside one. -/
inductive JSVal where
  | undefined
  | null
  | bool (b : Bool)
  | num (bits : Nat)
  | str (s : String)
  | arr (items : List JSVal)
  | obj (fields : List (String × JSVal))

/-- The value of `req.body` once `bodyParser.json()` (line 8) has run: the parsed JSON
document, which the parser's strict mode restricts to an object or an array, or nothing
at all.  A request without a JSON body is given the empty object by body-parser 1.x and
is left with `req.body === undefined` by body-parser 2.x; the repository fixes no
version, so both are requests the handler can receive.  `fields` are the own properties
of the parsed object, one entry per key. -/
inductive ReqBody where
  | absent
  | object (fields : List (String × JSVal))
  | array (items : List JSVal)

/-- The value a request carries under a name: the property if the body is an object
that has it, `undefined` otherwise (an array has none of the names the handler reads,
and a body that is not there carries nothing). -/
def ReqBody.get (body : ReqBody) (key : String) : JSVal :=
  match body with
  | .absent => .undefined
  | .object fields => (fields.lookup key).getD .undefined
  | .array _ => .undefined

/-- Comparison `v === 'literal'` of a value with a string literal: true exactly when the
value is a string with the same characters. -/
def strictEqStr (v : JSVal) (literal : String) : Bool :=
  match v with
  | .str s => s == literal
  | _ => false

/-! ## Environment -/

/-- Arguments `(error, stdout, stderr)` with which `exec` calls its callback.
`error` is `none` for JavaScript `null` (the command exited with code zero) and
`some code` for the `Error` object of a failed command, `code` being its exit code. -/
structure ExecOutcome where
  error : Option Int
  stdout : String
  stderr : String

/-- The world outside the handler.  A thrown exception is represented by its
`message`, the only part of it the handler looks at. -/
structure Env where
  /-- Result of `fs.readFileSync(path, encoding)`: the text read or the thrown error. -/
  readFileSync : JSVal → String → Except String String
  /-- Result of `fs.writeFileSync(path, data, encoding)`. -/
  writeFileSync : JSVal → JSVal → String → Except String Unit
  /-- What the child process started for a command line reports to the callback. -/
  exec : String → ExecOutcome
  /-- Message of the `TypeError` the engine throws for reading `v.key`, or for
  destructuring `key` out of `v`, when `v` is nullish. -/
  typeErrorMessage : JSVal → String → String

/-- Property read `v.key` for the two names the handler reads (`path`, `content`):
throws on `undefined` and `null`, looks the key up in an object, and is `undefined`
on every other value (neither name is a property of arrays, strings, numbers or
booleans). -/
def getProp (env : Env) (v : JSVal) (key : String) : Except String JSVal :=
  match v with
  | .undefined => .error (env.typeErrorMessage v key)
  | .null => .error (env.typeErrorMessage v key)
  | .obj fields => .ok ((fields.lookup key).getD .undefined)
  | _ => .ok .undefined

/-! ## Response object and trace -/

/-- Calls that leave the handler, in the order they are made. -/
inductive Effect where
  | readFileSync (path : JSVal) (encoding : String)
  | writeFileSync (path data : JSVal) (encoding : String)
  | exec (command : String)
  /-- A call `res.json(body)` made while `res.statusCode` was `status`. -/
  | json (status : Nat) (body : JSVal)

/-- State of one request. -/
structure World where
  /-- Field `res.statusCode`; Express starts it at 200. -/
  statusCode : Nat
  /-- The response written to the client, once there is one (`res.headersSent`). -/
  sent : Option (Nat × JSVal)
  /-- Every outside call so far. -/
  trace : List Effect
  /-- Commands given to `exec` whose callback has not run yet. -/
  pending : List String
  /-- Messages of exceptions that nothing caught. -/
  uncaught : List String

/-- State when the handler is entered. -/
def World.init : World :=
  { statusCode := 200, sent := none, trace := [], pending := [], uncaught := [] }

/-- Message of Node's `ERR_HTTP_HEADERS_SENT`. -/
def headersSentMessage : String := "Cannot set headers after they are sent to the client"

/-- Call `res.status(code)`. -/
def resStatus (code : Nat) (w : World) : World :=
  { w with statusCode := code }

/-- Call `res.json(body)`: writes the response with the current status code; when a
response has already been written nothing is sent and the call throws. -/
def resJson (body : JSVal) (w : World) : Except String Unit × World :=
  let w1 := { w with trace := w.trace ++ [Effect.json w.statusCode body] }
  match w.sent with
  | some _ => (.error headersSentMessage, w1)
  | none => (.ok (), { w1 with sent := some (w.statusCode, body) })

/-- Call `fs.readFileSync(path, encoding)`. -/
def fsReadFileSync (env : Env) (path : JSVal) (encoding : String) (w : World) :
    Except String String × World :=
  (env.readFileSync path encoding,
    { w with trace := w.trace ++ [Effect.readFileSync path encoding] })

/-- Call `fs.writeFileSync(path, data, encoding)`. -/
def fsWriteFileSync (env : Env) (path data : JSVal) (encoding : String) (w : World) :
    Except String Unit × World :=
  (env.writeFileSync path data encoding,
    { w with trace := w.trace ++ [Effect.writeFileSync path data encoding] })

/-- Call `exec(command, callback)`: starts the command and registers the callback. -/
def childExec (command : String) (w : World) : World :=
  { w with trace := w.trace ++ [Effect.exec command], pending := w.pending ++ [command] }

/-- Object literal `{ result: v }`. -/
def resultBody (v : String) : JSVal := .obj [("result", .str v)]

/-- Object literal `{ error: v }`. -/
def errorBody (v : String) : JSVal := .obj [("error", .str v)]

/-! ## The handler -/

/-- Lines 14-31, the body of the `try` block.  The first component is `.error m` when an
exception with message `m` leaves the block, `.ok ()` when the block ends or returns. -/
def tryBlock (env : Env) (tool input : JSVal) (w : World) : Except String Unit × World :=
  if strictEqStr tool "readFile" then
    match getProp env input "path" with
    | .error m => (.error m, w)
    | .ok path =>
      match fsReadFileSync env path "utf-8" w with
      | (.error m, w1) => (.error m, w1)
      | (.ok content, w1) => resJson (resultBody content) w1
  else if strictEqStr tool "writeFile" then
    match getProp env input "path" with
    | .error m => (.error m, w)
    | .ok path =>
      match getProp env input "content" with
      | .error m => (.error m, w)
      | .ok content =>
        match fsWriteFileSync env path content "utf-8" w with
        | (.error m, w1) => (.error m, w1)
        | (.ok _, w1) => resJson (resultBody "success") w1
  else
    let w1 := if strictEqStr tool "runTests" then childExec "pytest tests/" w else w
    resJson (errorBody "tool_unknown") (resStatus 400 w1)

/-- Lines 13-34, the `try` statement with its `catch`. -/
def tryCatch (env : Env) (tool input : JSVal) (w : World) : World :=
  match tryBlock env tool input w with
  | (.ok _, w1) => w1
  | (.error m, w1) =>
    match resJson (errorBody m) (resStatus 500 w1) with
    | (.ok _, w2) => w2
    | (.error m2, w2) => { w2 with uncaught := w2.uncaught ++ [m2] }

/-- Line 11, `const { tool, input } = req.body`: throws a `TypeError` when `req.body`
is `undefined`, and otherwise yields the two properties, each `undefined` when the
body does not have it. -/
def destructure (env : Env) (body : ReqBody) : Except String (JSVal × JSVal) :=
  match body with
  | .absent => .error (env.typeErrorMessage .undefined "tool")
  | _ => .ok (body.get "tool", body.get "input")

/-- Lines 10-35, the function passed to `app.post('/mcp', ...)`.  Line 11 stands before
the `try`, so an exception it throws leaves the handler with no `res.json` call made;
what Express then does with it is outside this file. -/
def handler (env : Env) (body : ReqBody) (w : World) : World :=
  match destructure env body with
  | .error m => { w with uncaught := w.uncaught ++ [m] }
  | .ok (tool, input) => tryCatch env tool input w

/-- Lines 25-28, the callback `(error, stdout, stderr) => ...` given to `exec`. -/
def execCallback (out : ExecOutcome) (w : World) : Except String Unit × World :=
  if out.error.isSome then resJson (errorBody out.stderr) w
  else resJson (resultBody out.stdout) w

/-- The event loop running the callback of every pending command, oldest first; an
exception leaving a callback is uncaught. -/
def runPending (env : Env) (cmds : List String) (w : World) : World :=
  match cmds with
  | [] => w
  | c :: rest =>
    match execCallback (env.exec c) w with
    | (.ok _, w1) => runPending env rest w1
    | (.error m, w1) => runPending env rest { w1 with uncaught := w1.uncaught ++ [m] }

/-- One request from start to finish: the handler, then the callbacks it registered. -/
def serve (env : Env) (body : ReqBody) : World :=
  let w := handler env body World.init
  runPending env w.pending { w with pending := [] }

/-! ## Observations -/

/-- The bodies of all `res.json` calls of a trace. -/
def jsonCalls (t : List Effect) : List (Nat × JSVal) :=
  t.filterMap fun e => match e with
    | .json s b => some (s, b)
    | _ => none

/-- The command lines of all `exec` calls of a trace. -/
def execCalls (t : List Effect) : List String :=
  t.filterMap fun e => match e with
    | .exec c => some c
    | _ => none

/-- The file-system calls of a trace. -/
def fsCalls (t : List Effect) : List Effect :=
  t.filter fun e => match e with
    | .readFileSync _ _ => true
    | .writeFileSync _ _ _ => true
    | _ => false

/-- The keys of a response body (no keys when it is not an object). -/
def bodyKeys (b : JSVal) : List String :=
  match b with
  | .obj fields => fields.map Prod.fst
  | _ => []

/-- A tool name is registered when it is one of the three the handler knows. -/
def registered (tool : JSVal) : Prop :=
  tool = .str "readFile" ∨ tool = .str "writeFile" ∨ tool = .str "runTests"

/-- Whether a value is a string. -/
def isStr (v : JSVal) : Bool :=
  match v with
  | .str _ => true
  | _ => false

/-- The input schema of the catalogue as the specification words it: `readFile` takes an
object with a string `path`, `writeFile` an object with a string `path` and a string
`content`.  The handler has no such check; the predicate only classifies requests. -/
def inputSchemaOk (tool input : JSVal) : Bool :=
  match input with
  | .obj fields =>
    if strictEqStr tool "readFile" then
      isStr ((fields.lookup "path").getD .undefined)
    else if strictEqStr tool "writeFile" then
      isStr ((fields.lookup "path").getD .undefined)
        && isStr ((fields.lookup "content").getD .undefined)
    else true
  | _ => false

/-- A file-system call one of whose arguments is not the string the schema asks for. -/
def offSchemaCall (e : Effect) : Bool :=
  match e with
  | .readFileSync path _ => !(isStr path)
  | .writeFileSync path data _ => !(isStr path && isStr data)
  | _ => false

/-- The file-system call of a `readFile` or `writeFile` request is reached and throws an
error with message `m`. -/
def fsCallThrows (env : Env) (tool input : JSVal) (m : String) : Prop :=
  (tool = .str "readFile" ∧
    ∃ path, getProp env input "path" = .ok path ∧ env.readFileSync path "utf-8" = .error m) ∨
  (tool = .str "writeFile" ∧
    ∃ path content, getProp env input "path" = .ok path ∧
      getProp env input "content" = .ok content ∧
      env.writeFileSync path content "utf-8" = .error m)

/-! ## Sample environment and requests -/

/-- A machine on which `/tmp/x.txt` holds `hello`, every path under `/readonly/` is
unwritable, and the test command reports `out`. -/
def sampleEnv (out : ExecOutcome) : Env where
  readFileSync path _ :=
    if strictEqStr path "/tmp/x.txt" then .ok "hello"
    else .error "ENOENT: no such file or directory"
  writeFileSync path _ _ :=
    if strictEqStr path "/readonly/x" then .error "EACCES: permission denied"
    else if isStr path then .ok ()
    else .error "The \"path\" argument must be of type string"
  exec _ := out
  typeErrorMessage _ key := "Cannot read properties of undefined (reading " ++ key ++ ")"

/-- A test run that passes, with a warning on standard error. -/
def passingRun : ExecOutcome := { error := none, stdout := "2 passed", stderr := "warning" }

/-- A test run that fails with exit code 1. -/
def failingRun : ExecOutcome := { error := some 1, stdout := "1 failed", stderr := "boom" }

/-- A request without a parsed body, `req.body === undefined`. -/
def bodylessRequest : ReqBody := .absent

/-- Request `{"tool":"bogus","input":{}}`. -/
def bogusRequest : ReqBody := .object [("tool", .str "bogus"), ("input", .obj [])]

/-- Request `{"tool":"readFile","input":{"path":"/tmp/x.txt"}}`. -/
def readRequest : ReqBody :=
  .object [("tool", .str "readFile"), ("input", .obj [("path", .str "/tmp/x.txt")])]

/-- Request `{"tool":"readFile","input":{"path":"/missing"}}`. -/
def readMissingRequest : ReqBody :=
  .object [("tool", .str "readFile"), ("input", .obj [("path", .str "/missing")])]

/-- Request `{"tool":"readFile"}`, without an input. -/
def readNoInputRequest : ReqBody := .object [("tool", .str "readFile")]

/-- Request `{"tool":"readFile","input":{}}`, without a path. -/
def readNoPathRequest : ReqBody := .object [("tool", .str "readFile"), ("input", .obj [])]

/-- Request `{"tool":"writeFile","input":{"path":"/tmp/y.txt","content":"y"}}`. -/
def writeRequest : ReqBody :=
  .object [("tool", .str "writeFile"),
    ("input", .obj [("path", .str "/tmp/y.txt"), ("content", .str "y")])]

/-- Request `{"tool":"writeFile","input":{"path":"/readonly/x","content":"y"}}`. -/
def writeReadonlyRequest : ReqBody :=
  .object [("tool", .str "writeFile"),
    ("input", .obj [("path", .str "/readonly/x"), ("content", .str "y")])]

/-- Request `{"tool":"runTests","input":{}}`. -/
def runTestsRequest : ReqBody := .object [("tool", .str "runTests"), ("input", .obj [])]

/-- Request `{"tool":"runTests","input":{"cmd":"rm -rf /"}}`. -/
def runTestsOtherRequest : ReqBody :=
  .object [("tool", .str "runTests"), ("input", .obj [("cmd", .str "rm -rf /")])]

/-! ## Basic facts -/

theorem strictEqStr_eq_true_iff (v : JSVal) (s : String) :
    strictEqStr v s = true ↔ v = .str s := by
  cases v <;> simp [strictEqStr]

theorem strictEqStr_eq_false_of_ne (v : JSVal) (s : String) (h : v ≠ .str s) :
    strictEqStr v s = false := by
  cases hb : strictEqStr v s
  · rfl
  · exact absurd ((strictEqStr_eq_true_iff v s).1 hb) h

theorem defined_of_tool (body : ReqBody) (s : String)
    (h : body.get "tool" = JSVal.str s) : body ≠ ReqBody.absent := by
  intro hb
  rw [hb] at h
  cases h

theorem handler_of_defined (env : Env) (body : ReqBody) (hdef : body ≠ ReqBody.absent)
    (w : World) :
    handler env body w = tryCatch env (body.get "tool") (body.get "input") w := by
  cases body with
  | absent => exact absurd rfl hdef
  | object fields => rfl
  | array items => rfl

/-! ## Unknown tools -/

/-- C1 fails at a request without a parsed body (`req.body === undefined`): its tool is
missing, hence none of the three names, yet line 11 throws before the `try` is entered,
so no `res.json` call is made, no 400 `{error: 'tool_unknown'}` is sent by the handler
and the exception leaves it. -/
theorem unknown_tool_counterexample :
    ¬ registered (bodylessRequest.get "tool") ∧
    (serve (sampleEnv passingRun) bodylessRequest).sent = none ∧
    (serve (sampleEnv passingRun) bodylessRequest).trace = [] ∧
    (serve (sampleEnv passingRun) bodylessRequest).uncaught
      = [(sampleEnv passingRun).typeErrorMessage JSVal.undefined "tool"] ∧
    (serve (sampleEnv passingRun) bodylessRequest).sent
      ≠ some (400, JSVal.obj [("error", JSVal.str "tool_unknown")]) := by
  refine ⟨?_, ?_, ?_, ?_, ?_⟩
  · simp [registered, bodylessRequest, ReqBody.get]
  all_goals
    simp [serve, handler, destructure, bodylessRequest, World.init, runPending]

/-- C1 as amended: a request whose `req.body` is there (the parsed object or array) and
whose `tool` is none of `readFile`, `writeFile`, `runTests` (a missing tool reads as
`undefined`), whatever its `input`, is answered with status 400 and body
`{error: 'tool_unknown'}`, and that response is the only outside call of the request:
nothing is read, written or spawned. -/
theorem unknown_tool_answers_400 (env : Env) (body : ReqBody)
    (hdef : body ≠ ReqBody.absent)
    (h : ¬ registered (body.get "tool")) :
    (serve env body).sent = some (400, JSVal.obj [("error", JSVal.str "tool_unknown")]) ∧
    (serve env body).trace
      = [Effect.json 400 (JSVal.obj [("error", JSVal.str "tool_unknown")])] ∧
    (serve env body).uncaught = [] := by
  have h1 : strictEqStr (body.get "tool") "readFile" = false :=
    strictEqStr_eq_false_of_ne _ _ fun e => h (Or.inl e)
  have h2 : strictEqStr (body.get "tool") "writeFile" = false :=
    strictEqStr_eq_false_of_ne _ _ fun e => h (Or.inr (Or.inl e))
  have h3 : strictEqStr (body.get "tool") "runTests" = false :=
    strictEqStr_eq_false_of_ne _ _ fun e => h (Or.inr (Or.inr e))
  simp [serve, handler_of_defined env body hdef, tryCatch, tryBlock,
    h1, h2, h3, resJson, resStatus, World.init, runPending,
    errorBody]

/-- C1 as amended, at the request `{"tool":"bogus","input":{}}`. -/
theorem unknown_tool_answers_400_witness :
    (serve (sampleEnv passingRun) bogusRequest).sent
        = some (400, JSVal.obj [("error", JSVal.str "tool_unknown")]) ∧
    (serve (sampleEnv passingRun) bogusRequest).trace
        = [Effect.json 400 (JSVal.obj [("error", JSVal.str "tool_unknown")])] ∧
    (serve (sampleEnv passingRun) bogusRequest).uncaught = [] :=
  unknown_tool_answers_400 (sampleEnv passingRun) bogusRequest
    (by simp [bogusRequest])
    (by simp [registered, bogusRequest, ReqBody.get, List.lookup])

/-! ## File tools -/

/-- C2: a `readFile` request whose input is an object with path `p`, when reading `p` as
UTF-8 text succeeds with contents `c`, gets status 200 and body `{result: c}` with `c`
unchanged; the read is the only file-system call. -/
theorem readFile_returns_contents (env : Env) (body : ReqBody)
    (fields : List (String × JSVal)) (p : JSVal) (c : String)
    (htool : body.get "tool" = JSVal.str "readFile")
    (hinput : body.get "input" = JSVal.obj fields)
    (hpath : fields.lookup "path" = some p)
    (hread : env.readFileSync p "utf-8" = Except.ok c) :
    (serve env body).sent = some (200, JSVal.obj [("result", JSVal.str c)]) ∧
    (serve env body).trace
      = [Effect.readFileSync p "utf-8",
         Effect.json 200 (JSVal.obj [("result", JSVal.str c)])] ∧
    (serve env body).uncaught = [] := by
  have hdef : body ≠ ReqBody.absent := defined_of_tool body _ htool
  simp [serve, handler_of_defined env body hdef, tryCatch, tryBlock, htool, hinput, hpath,
    hread, strictEqStr, getProp,
    fsReadFileSync, resJson, World.init, runPending, resultBody]

/-- C2 at the request `{"tool":"readFile","input":{"path":"/tmp/x.txt"}}` with the file
holding `hello`. -/
theorem readFile_returns_contents_witness :
    (serve (sampleEnv passingRun) readRequest).sent
        = some (200, JSVal.obj [("result", JSVal.str "hello")]) ∧
    (serve (sampleEnv passingRun) readRequest).trace
        = [Effect.readFileSync (JSVal.str "/tmp/x.txt") "utf-8",
           Effect.json 200 (JSVal.obj [("result", JSVal.str "hello")])] ∧
    (serve (sampleEnv passingRun) readRequest).uncaught = [] :=
  readFile_returns_contents (sampleEnv passingRun) readRequest
    [("path", JSVal.str "/tmp/x.txt")] (JSVal.str "/tmp/x.txt") "hello" rfl rfl rfl rfl

/-- C3: a `writeFile` request whose input is an object with path `p` and content `c`,
when the write succeeds, performs exactly one write, of `c` to `p`, and gets status 200
and body `{result: 'success'}`. -/
theorem writeFile_writes_once (env : Env) (body : ReqBody)
    (fields : List (String × JSVal)) (p c : JSVal)
    (htool : body.get "tool" = JSVal.str "writeFile")
    (hinput : body.get "input" = JSVal.obj fields)
    (hpath : fields.lookup "path" = some p)
    (hcontent : fields.lookup "content" = some c)
    (hwrite : env.writeFileSync p c "utf-8" = Except.ok ()) :
    fsCalls (serve env body).trace = [Effect.writeFileSync p c "utf-8"] ∧
    (serve env body).trace
      = [Effect.writeFileSync p c "utf-8",
         Effect.json 200 (JSVal.obj [("result", JSVal.str "success")])] ∧
    (serve env body).sent = some (200, JSVal.obj [("result", JSVal.str "success")]) ∧
    (serve env body).uncaught = [] := by
  have hdef : body ≠ ReqBody.absent := defined_of_tool body _ htool
  simp [serve, handler_of_defined env body hdef, tryCatch, tryBlock, htool, hinput, hpath,
    hcontent, hwrite, strictEqStr,
    getProp, fsWriteFileSync, resJson, World.init, runPending, resultBody, fsCalls]

/-- C3 at the request `{"tool":"writeFile","input":{"path":"/tmp/y.txt","content":"y"}}`. -/
theorem writeFile_writes_once_witness :
    fsCalls (serve (sampleEnv passingRun) writeRequest).trace
        = [Effect.writeFileSync (JSVal.str "/tmp/y.txt") (JSVal.str "y") "utf-8"] ∧
    (serve (sampleEnv passingRun) writeRequest).trace
        = [Effect.writeFileSync (JSVal.str "/tmp/y.txt") (JSVal.str "y") "utf-8",
           Effect.json 200 (JSVal.obj [("result", JSVal.str "success")])] ∧
    (serve (sampleEnv passingRun) writeRequest).sent
        = some (200, JSVal.obj [("result", JSVal.str "success")]) ∧
    (serve (sampleEnv passingRun) writeRequest).uncaught = [] :=
  writeFile_writes_once (sampleEnv passingRun) writeRequest
    [("path", JSVal.str "/tmp/y.txt"), ("content", JSVal.str "y")]
    (JSVal.str "/tmp/y.txt") (JSVal.str "y") rfl rfl rfl rfl rfl

/-- C4: when the file-system call of a `readFile` or `writeFile` request throws an error
with message `m`, the exception is caught inside the handler (nothing is uncaught) and
exactly one response is sent, with status 500 and body `{error: m}`. -/
theorem fs_error_answers_500 (env : Env) (body : ReqBody) (m : String)
    (h : fsCallThrows env (body.get "tool") (body.get "input") m) :
    (serve env body).sent = some (500, JSVal.obj [("error", JSVal.str m)]) ∧
    jsonCalls (serve env body).trace = [(500, JSVal.obj [("error", JSVal.str m)])] ∧
    (serve env body).uncaught = [] := by
  rcases h with ⟨htool, path, hpath, hread⟩ | ⟨htool, path, content, hpath, hcontent, hwrite⟩
  · have hdef : body ≠ ReqBody.absent := defined_of_tool body _ htool
    simp [serve, handler_of_defined env body hdef, tryCatch, tryBlock, htool, hpath, hread,
      strictEqStr,
      fsReadFileSync, resJson, resStatus, World.init, runPending, errorBody, jsonCalls]
  · have hdef : body ≠ ReqBody.absent := defined_of_tool body _ htool
    simp [serve, handler_of_defined env body hdef, tryCatch, tryBlock, htool, hpath, hcontent,
      hwrite, strictEqStr,
      fsWriteFileSync, resJson, resStatus, World.init, runPending, errorBody, jsonCalls]

/-- C4 at the request `{"tool":"writeFile","input":{"path":"/readonly/x","content":"y"}}`
on an unwritable path. -/
theorem fs_error_answers_500_witness :
    (serve (sampleEnv passingRun) writeReadonlyRequest).sent
        = some (500, JSVal.obj [("error", JSVal.str "EACCES: permission denied")]) ∧
    jsonCalls (serve (sampleEnv passingRun) writeReadonlyRequest).trace
        = [(500, JSVal.obj [("error", JSVal.str "EACCES: permission denied")])] ∧
    (serve (sampleEnv passingRun) writeReadonlyRequest).uncaught = [] :=
  fs_error_answers_500 (sampleEnv passingRun) writeReadonlyRequest
    "EACCES: permission denied"
    (Or.inr ⟨rfl, JSVal.str "/readonly/x", JSVal.str "y", rfl, rfl, rfl⟩)

/-! ## The test runner -/

/-- The whole run of a `runTests` request: `exec` is started, the handler goes on to
the 400 answer, and the callback's later `res.json` finds the response already sent. -/
theorem serve_runTests (env : Env) (body : ReqBody)
    (htool : body.get "tool" = JSVal.str "runTests") :
    serve env body =
      { statusCode := 400
        sent := some (400, errorBody "tool_unknown")
        trace := [Effect.exec "pytest tests/", Effect.json 400 (errorBody "tool_unknown"),
          Effect.json 400
            (if (env.exec "pytest tests/").error.isSome
              then errorBody (env.exec "pytest tests/").stderr
              else resultBody (env.exec "pytest tests/").stdout)]
        pending := []
        uncaught := [headersSentMessage] } := by
  have hdef : body ≠ ReqBody.absent := defined_of_tool body _ htool
  by_cases herr : (env.exec "pytest tests/").error.isSome = true <;>
    simp [serve, handler_of_defined env body hdef, tryCatch, tryBlock, htool, strictEqStr,
      childExec, resJson, resStatus, World.init, runPending, execCallback, herr]

theorem runTestsRequest_tool : runTestsRequest.get "tool" = JSVal.str "runTests" := rfl

/-- C5, at the request `{"tool":"runTests","input":{}}`: the request names a registered
tool and is nevertheless answered with status 400 and body `{error: 'tool_unknown'}`,
whatever the test command does. -/
theorem runTests_answered_tool_unknown (env : Env) :
    (serve env runTestsRequest).sent
      = some (400, JSVal.obj [("error", JSVal.str "tool_unknown")]) := by
  rw [serve_runTests env runTestsRequest runTestsRequest_tool]
  rfl

/-- C6, at the request `{"tool":"runTests","input":{}}`: `res.json` is called twice, once
by the handler and once more by the `exec` callback after the response has been sent;
the second call throws and nothing catches it. -/
theorem runTests_second_response_attempted (env : Env) :
    (jsonCalls (serve env runTestsRequest).trace).length = 2 ∧
    (serve env runTestsRequest).uncaught = [headersSentMessage] := by
  rw [serve_runTests env runTestsRequest runTestsRequest_tool]
  simp [jsonCalls]

/-- C7, at the request `{"tool":"runTests","input":{}}` with the test command exiting
with code 1 and `boom` on standard error: the client receives 400 `tool_unknown`; the
callback's `{error: 'boom'}` comes second, is refused, and never had status 500. -/
theorem runTests_failure_not_delivered :
    (serve (sampleEnv failingRun) runTestsRequest).sent
      = some (400, JSVal.obj [("error", JSVal.str "tool_unknown")]) ∧
    jsonCalls (serve (sampleEnv failingRun) runTestsRequest).trace
      = [(400, JSVal.obj [("error", JSVal.str "tool_unknown")]),
         (400, JSVal.obj [("error", JSVal.str "boom")])] ∧
    (serve (sampleEnv failingRun) runTestsRequest).sent
      ≠ some (500, JSVal.obj [("error", JSVal.str "boom")]) := by
  rw [serve_runTests _ runTestsRequest runTestsRequest_tool]
  simp [jsonCalls, errorBody, sampleEnv, failingRun]

/-- C8 fails at the request `{"tool":"runTests","input":{}}` with the test command exiting
with code zero, `2 passed` on standard output and `warning` on standard error: no
response with status 200 and a `result` body is delivered, and the only `result` the
callback offers is the standard output, without the text of standard error. -/
theorem runTests_success_counterexample :
    (¬ ∃ o, (serve (sampleEnv passingRun) runTestsRequest).sent
        = some (200, JSVal.obj [("result", JSVal.str o)])) ∧
    (∀ s o, (s, JSVal.obj [("result", JSVal.str o)])
        ∈ jsonCalls (serve (sampleEnv passingRun) runTestsRequest).trace → o = "2 passed") := by
  rw [serve_runTests _ runTestsRequest runTestsRequest_tool]
  simp [jsonCalls, errorBody, resultBody, sampleEnv, passingRun]

/-- C8 as amended: for a `runTests` request whose test command exits with code zero, the
`exec` callback makes exactly one `res.json` call, and its body is `{result: o}` with `o`
the command's captured standard output alone. -/
theorem runTests_callback_offers_stdout (env : Env) (body : ReqBody)
    (htool : body.get "tool" = JSVal.str "runTests")
    (hzero : (env.exec "pytest tests/").error = none) :
    ∃ s, (serve env body).trace
      = (handler env body World.init).trace
        ++ [Effect.json s (JSVal.obj [("result", JSVal.str (env.exec "pytest tests/").stdout)])] := by
  have hdef : body ≠ ReqBody.absent := defined_of_tool body _ htool
  refine ⟨400, ?_⟩
  rw [serve_runTests env body htool]
  simp [handler_of_defined env body hdef, tryCatch, tryBlock, htool, strictEqStr, childExec,
    resJson, resStatus, World.init,
    hzero, resultBody]

/-- C8 as amended, at the request `{"tool":"runTests","input":{}}` with a passing run. -/
theorem runTests_callback_offers_stdout_witness :
    ∃ s, (serve (sampleEnv passingRun) runTestsRequest).trace
      = (handler (sampleEnv passingRun) runTestsRequest World.init).trace
        ++ [Effect.json s (JSVal.obj [("result", JSVal.str "2 passed")])] :=
  runTests_callback_offers_stdout (sampleEnv passingRun) runTestsRequest rfl rfl

/-- C10: for any two `runTests` requests, whatever their inputs and whatever the machine,
the only command given to `exec` is the fixed string `pytest tests/`, and no file is read
or written. -/
theorem runTests_command_fixed (env1 env2 : Env) (body1 body2 : ReqBody)
    (h1 : body1.get "tool" = JSVal.str "runTests")
    (h2 : body2.get "tool" = JSVal.str "runTests") :
    execCalls (serve env1 body1).trace = ["pytest tests/"] ∧
    execCalls (serve env2 body2).trace = ["pytest tests/"] ∧
    fsCalls (serve env1 body1).trace = [] ∧
    fsCalls (serve env2 body2).trace = [] := by
  rw [serve_runTests env1 body1 h1, serve_runTests env2 body2 h2]
  simp [execCalls, fsCalls]

/-- C10 at the requests `{"tool":"runTests","input":{}}` on a machine with passing tests
and `{"tool":"runTests","input":{"cmd":"rm -rf /"}}` on one with failing tests. -/
theorem runTests_command_fixed_witness :
    execCalls (serve (sampleEnv passingRun) runTestsRequest).trace = ["pytest tests/"] ∧
    execCalls (serve (sampleEnv failingRun) runTestsOtherRequest).trace = ["pytest tests/"] ∧
    fsCalls (serve (sampleEnv passingRun) runTestsRequest).trace = [] ∧
    fsCalls (serve (sampleEnv failingRun) runTestsOtherRequest).trace = [] :=
  runTests_command_fixed (sampleEnv passingRun) (sampleEnv failingRun)
    runTestsRequest runTestsOtherRequest rfl rfl

/-! ## Inputs outside the schema -/

/-- C9 fails at two requests.  `{"tool":"readFile"}` has no input, fails the schema, and
is answered with status 500, not 400.  `{"tool":"readFile","input":{}}` has no path,
fails the schema, and `fs.readFileSync` is called all the same, with `undefined`. -/
theorem schema_rejection_counterexample :
    inputSchemaOk (readNoInputRequest.get "tool") (readNoInputRequest.get "input") = false ∧
    ((serve (sampleEnv passingRun) readNoInputRequest).sent.map Prod.fst) = some 500 ∧
    inputSchemaOk (readNoPathRequest.get "tool") (readNoPathRequest.get "input") = false ∧
    fsCalls (serve (sampleEnv passingRun) readNoPathRequest).trace
      = [Effect.readFileSync JSVal.undefined "utf-8"] := by
  refine ⟨rfl, ?_, rfl, ?_⟩
  · simp [serve, handler, destructure, tryCatch, tryBlock,
      readNoInputRequest, ReqBody.get, List.lookup,
      strictEqStr, getProp, resJson, resStatus, World.init, runPending]
  · simp [serve, handler, destructure, tryCatch, tryBlock,
      readNoPathRequest, ReqBody.get, List.lookup,
      strictEqStr, getProp, fsReadFileSync, sampleEnv, resJson, resStatus, World.init,
      runPending, fsCalls]

/-- C9 as amended: a `readFile` or `writeFile` request whose input fails the schema is not
rejected ahead of the handler.  Its response has status 200 or 500, never 400.  When the
input is `undefined` or `null` no file-system call is made and the response is 500 with
the message of the engine's `TypeError`; for every other such input exactly one
file-system call is made, with an argument that is not the string the schema asks for. -/
theorem schema_failure_reaches_handler (env : Env) (body : ReqBody)
    (htool : body.get "tool" = JSVal.str "readFile" ∨ body.get "tool" = JSVal.str "writeFile")
    (hbad : inputSchemaOk (body.get "tool") (body.get "input") = false) :
    (∃ b, (serve env body).sent = some (200, b) ∨ (serve env body).sent = some (500, b)) ∧
    ((body.get "input" = JSVal.undefined ∨ body.get "input" = JSVal.null) →
      fsCalls (serve env body).trace = [] ∧
      (serve env body).sent = some (500,
        JSVal.obj [("error", JSVal.str (env.typeErrorMessage (body.get "input") "path"))])) ∧
    (body.get "input" ≠ JSVal.undefined → body.get "input" ≠ JSVal.null →
      ∃ e, fsCalls (serve env body).trace = [e] ∧ offSchemaCall e = true) := by
  rcases htool with htool | htool
  · have hdef : body ≠ ReqBody.absent := defined_of_tool body _ htool
    rw [htool] at hbad
    cases hin : body.get "input" with
    | undefined =>
      simp [serve, handler_of_defined env body hdef, tryCatch, tryBlock,
        htool, hin, strictEqStr, getProp, resJson, resStatus,
        World.init, runPending, errorBody, fsCalls]
    | null =>
      simp [serve, handler_of_defined env body hdef, tryCatch, tryBlock,
        htool, hin, strictEqStr, getProp, resJson, resStatus,
        World.init, runPending, errorBody, fsCalls]
    | obj fields =>
      rw [hin] at hbad
      simp [inputSchemaOk, strictEqStr] at hbad
      cases hr : env.readFileSync ((fields.lookup "path").getD JSVal.undefined) "utf-8" <;>
        simp [serve, handler_of_defined env body hdef, tryCatch, tryBlock,
          htool, hin, strictEqStr, getProp, fsReadFileSync, hr,
          resJson, resStatus, World.init, runPending, errorBody, resultBody, fsCalls,
          offSchemaCall, hbad]
    | _ =>
      cases hr : env.readFileSync JSVal.undefined "utf-8" <;>
        simp [serve, handler_of_defined env body hdef, tryCatch, tryBlock,
          htool, hin, strictEqStr, getProp, fsReadFileSync, hr,
          resJson, resStatus, World.init, runPending, errorBody, resultBody, fsCalls,
          offSchemaCall, isStr]
  · have hdef : body ≠ ReqBody.absent := defined_of_tool body _ htool
    rw [htool] at hbad
    cases hin : body.get "input" with
    | undefined =>
      simp [serve, handler_of_defined env body hdef, tryCatch, tryBlock,
        htool, hin, strictEqStr, getProp, resJson, resStatus,
        World.init, runPending, errorBody, fsCalls]
    | null =>
      simp [serve, handler_of_defined env body hdef, tryCatch, tryBlock,
        htool, hin, strictEqStr, getProp, resJson, resStatus,
        World.init, runPending, errorBody, fsCalls]
    | obj fields =>
      rw [hin] at hbad
      simp [inputSchemaOk, strictEqStr] at hbad
      have hoff : isStr ((fields.lookup "path").getD JSVal.undefined) = false ∨
          isStr ((fields.lookup "content").getD JSVal.undefined) = false := by
        cases hp : isStr ((fields.lookup "path").getD JSVal.undefined)
        · exact Or.inl rfl
        · exact Or.inr (hbad hp)
      cases hr : env.writeFileSync ((fields.lookup "path").getD JSVal.undefined)
          ((fields.lookup "content").getD JSVal.undefined) "utf-8" <;>
        simp [serve, handler_of_defined env body hdef, tryCatch, tryBlock,
          htool, hin, strictEqStr, getProp, fsWriteFileSync, hr,
          resJson, resStatus, World.init, runPending, errorBody, resultBody, fsCalls,
          offSchemaCall, hoff]
    | _ =>
      cases hr : env.writeFileSync JSVal.undefined JSVal.undefined "utf-8" <;>
        simp [serve, handler_of_defined env body hdef, tryCatch, tryBlock,
          htool, hin, strictEqStr, getProp, fsWriteFileSync, hr,
          resJson, resStatus, World.init, runPending, errorBody, resultBody, fsCalls,
          offSchemaCall, isStr]

/-- C9 as amended, at the request `{"tool":"readFile","input":{}}`. -/
theorem schema_failure_reaches_handler_witness :
    (∃ b, (serve (sampleEnv passingRun) readNoPathRequest).sent = some (200, b) ∨
      (serve (sampleEnv passingRun) readNoPathRequest).sent = some (500, b)) ∧
    ((readNoPathRequest.get "input" = JSVal.undefined ∨
        readNoPathRequest.get "input" = JSVal.null) →
      fsCalls (serve (sampleEnv passingRun) readNoPathRequest).trace = [] ∧
      (serve (sampleEnv passingRun) readNoPathRequest).sent = some (500,
        JSVal.obj [("error", JSVal.str ((sampleEnv passingRun).typeErrorMessage
          (readNoPathRequest.get "input") "path"))])) ∧
    (readNoPathRequest.get "input" ≠ JSVal.undefined →
      readNoPathRequest.get "input" ≠ JSVal.null →
      ∃ e, fsCalls (serve (sampleEnv passingRun) readNoPathRequest).trace = [e] ∧
        offSchemaCall e = true) :=
  schema_failure_reaches_handler (sampleEnv passingRun) readNoPathRequest (Or.inl rfl) rfl

/-! ## Requests that do not run the tests -/

/-- Every request with a body whose tool is not `runTests` makes exactly one `res.json`
call, the body of which has exactly one key, `result` or `error`, and leaves nothing
uncaught. -/
theorem single_response_unless_runTests (env : Env) (body : ReqBody)
    (hdef : body ≠ ReqBody.absent)
    (htool : body.get "tool" ≠ JSVal.str "runTests") :
    ∃ s b, jsonCalls (serve env body).trace = [(s, b)] ∧
      (serve env body).sent = some (s, b) ∧
      (bodyKeys b = ["result"] ∨ bodyKeys b = ["error"]) ∧
      (serve env body).uncaught = [] := by
  have h3 : strictEqStr (body.get "tool") "runTests" = false :=
    strictEqStr_eq_false_of_ne _ _ htool
  cases h1 : strictEqStr (body.get "tool") "readFile"
  · cases h2 : strictEqStr (body.get "tool") "writeFile"
    · refine ⟨400, errorBody "tool_unknown", ?_, ?_, Or.inr rfl, ?_⟩ <;>
        simp [serve, handler_of_defined env body hdef, tryCatch, tryBlock,
          h1, h2, h3, resJson, resStatus, World.init,
          runPending, jsonCalls]
    · cases hp : getProp env (body.get "input") "path" with
      | error m =>
        refine ⟨500, errorBody m, ?_, ?_, Or.inr rfl, ?_⟩ <;>
          simp [serve, handler_of_defined env body hdef, tryCatch, tryBlock,
            h1, h2, hp, resJson, resStatus, World.init,
            runPending, jsonCalls]
      | ok path =>
        cases hc : getProp env (body.get "input") "content" with
        | error m =>
          refine ⟨500, errorBody m, ?_, ?_, Or.inr rfl, ?_⟩ <;>
            simp [serve, handler_of_defined env body hdef, tryCatch, tryBlock,
              h1, h2, hp, hc, resJson, resStatus, World.init,
              runPending, jsonCalls]
        | ok content =>
          cases hw : env.writeFileSync path content "utf-8" with
          | error m =>
            refine ⟨500, errorBody m, ?_, ?_, Or.inr rfl, ?_⟩ <;>
              simp [serve, handler_of_defined env body hdef, tryCatch, tryBlock,
                h1, h2, hp, hc, hw, fsWriteFileSync, resJson,
                resStatus, World.init, runPending, jsonCalls]
          | ok u =>
            refine ⟨200, resultBody "success", ?_, ?_, Or.inl rfl, ?_⟩ <;>
              simp [serve, handler_of_defined env body hdef, tryCatch, tryBlock,
                h1, h2, hp, hc, hw, fsWriteFileSync, resJson,
                resStatus, World.init, runPending, jsonCalls]
  · cases hp : getProp env (body.get "input") "path" with
    | error m =>
      refine ⟨500, errorBody m, ?_, ?_, Or.inr rfl, ?_⟩ <;>
        simp [serve, handler_of_defined env body hdef, tryCatch, tryBlock,
          h1, hp, resJson, resStatus, World.init,
          runPending, jsonCalls]
    | ok path =>
      cases hr : env.readFileSync path "utf-8" with
      | error m =>
        refine ⟨500, errorBody m, ?_, ?_, Or.inr rfl, ?_⟩ <;>
          simp [serve, handler_of_defined env body hdef, tryCatch, tryBlock,
            h1, hp, hr, fsReadFileSync, resJson,
            resStatus, World.init, runPending, jsonCalls]
      | ok c =>
        refine ⟨200, resultBody c, ?_, ?_, Or.inl rfl, ?_⟩ <;>
          simp [serve, handler_of_defined env body hdef, tryCatch, tryBlock,
            h1, hp, hr, fsReadFileSync, resJson,
            resStatus, World.init, runPending, jsonCalls]

/-- A `readFile` or `writeFile` request is answered with status 200 or 500, so never
with the 400 of an unknown tool. -/
theorem file_tool_status (env : Env) (body : ReqBody)
    (htool : body.get "tool" = JSVal.str "readFile" ∨ body.get "tool" = JSVal.str "writeFile") :
    ∃ b, (serve env body).sent = some (200, b) ∨ (serve env body).sent = some (500, b) := by
  rcases htool with htool | htool
  · have hdef : body ≠ ReqBody.absent := defined_of_tool body _ htool
    cases hp : getProp env (body.get "input") "path" with
    | error m =>
      simp [serve, handler_of_defined env body hdef, tryCatch, tryBlock,
        htool, strictEqStr, hp, resJson, resStatus, World.init,
        runPending]
    | ok path =>
      cases hr : env.readFileSync path "utf-8" <;>
        simp [serve, handler_of_defined env body hdef, tryCatch, tryBlock,
          htool, strictEqStr, hp, hr, fsReadFileSync, resJson,
          resStatus, World.init, runPending]
  · have hdef : body ≠ ReqBody.absent := defined_of_tool body _ htool
    cases hp : getProp env (body.get "input") "path" with
    | error m =>
      simp [serve, handler_of_defined env body hdef, tryCatch, tryBlock,
        htool, strictEqStr, hp, resJson, resStatus, World.init,
        runPending]
    | ok path =>
      cases hc : getProp env (body.get "input") "content" with
      | error m =>
        simp [serve, handler_of_defined env body hdef, tryCatch, tryBlock,
          htool, strictEqStr, hp, hc, resJson, resStatus,
          World.init, runPending]
      | ok content =>
        cases hw : env.writeFileSync path content "utf-8" <;>
          simp [serve, handler_of_defined env body hdef, tryCatch, tryBlock,
            htool, strictEqStr, hp, hc, hw, fsWriteFileSync,
            resJson, resStatus, World.init, runPending]

end McpServer
